import Mathlib

set_option maxRecDepth 10000

/-!
Verification of the lifelog transfer core (`gshock_api/iolib/lifelog_io.py`).

The module reassembles a fragmented binary payload from two notification
channels: a control channel ("Data Request SP", handler `on_drsp_received`)
and a bulk data channel ("Convoy", handler `on_convoy_received`).  Once the
accumulated buffer reaches the announced expected length, the session reads a
4-byte little-endian step count at byte offset 374 and resolves the waiting
caller through a one-shot result channel (`CancelableResult`).

Shallow embedding conventions:
  * bytes are `Nat` (with explicit `< 256` bounds where the arithmetic
    depends on them);
  * the Python class attributes `_connection`, `_result`, `_buffer`,
    `_expected_len` become the fields of a `Session` record;
  * `_connection : ConnectionProtocol | None` is modelled by a `Bool`
    recording whether a connection handle is installed;
  * `_result : CancelableResult[int] | None` is modelled by
    `Option (Option Nat)`: `none` means no request is active, `some none`
    a pending (armed, unresolved) channel, `some (some v)` a channel that
    has delivered `v`;
  * handlers that write to the transport additionally return the list of
    frames they sent, as `(category, frame bytes)` pairs.
-/

namespace LifelogIO

/-- One-shot result channel state: `none` = pending, `some v` = resolved. -/
abbrev Channel := Option Nat

/-- Modelled from the spec: `CancelableResult.set_result` is not part of the
sources (only `lifelog_io.py` is); per spec §4.3 it "delivers exactly once; a
second call is a no-op ..., never a second delivery to the caller". -/
def set_result (ch : Channel) (v : Nat) : Channel :=
  match ch with
  | none => some v
  | some w => some w

/-- The mutable class-level state of `LifelogIO`. -/
structure Session where
  connection : Bool
  result : Option Channel
  buffer : List Nat
  expected_len : Option Nat
  deriving Repr, DecidableEq

/-- `_STEPS_OFFSET = 374`: offset of the step count in the payload. -/
def STEPS_OFFSET : Nat := 374

/-- `struct.unpack_from("<I", buffer, 374)[0]`: the 4-byte little-endian
unsigned integer at offset 374 of the buffer. -/
def readSteps (buf : List Nat) : Nat :=
  buf.getD 374 0 + buf.getD 375 0 * 256 + buf.getD 376 0 * 65536 +
    buf.getD 377 0 * 16777216

/-- Embedding of `LifelogIO._finalize_if_ready`. -/
def finalize_if_ready (s : Session) : Session :=
  match s.result with
  | none => s
  | some ch =>
    match s.expected_len with
    | none => s
    | some el =>
      if s.buffer.length < el then s
      else if STEPS_OFFSET + 4 ≤ s.buffer.length then
        { s with result := some (set_result ch (readSteps s.buffer)) }
      else s

/-- Embedding of `LifelogIO.on_drsp_received` (control-channel handler). -/
def on_drsp_received (s : Session) (data : List Nat) : Session :=
  if data.length < 5 then s
  else
    let command := data.getD 0 0
    let category := data.getD 1 0
    if category ≠ 0x11 then s
    else
      let length := data.getD 2 0 ||| (data.getD 3 0 <<< 8) ||| (data.getD 4 0 <<< 16)
      let s1 := if command = 0x00 then { s with expected_len := some length } else s
      if command = 0x04 then finalize_if_ready s1 else s1

/-- The outbound end frame `bytes([0x04, 0x11, 0x00, 0x00, 0x00])`. -/
def end_cmd : List Nat := [0x04, 0x11, 0x00, 0x00, 0x00]

/-- The outbound start frame `bytes([0x00, 0x11, 0x00, 0x00, 0x00])`. -/
def start_cmd : List Nat := [0x00, 0x11, 0x00, 0x00, 0x00]

/-- Embedding of `LifelogIO.on_convoy_received` (data-channel handler).
Returns the updated session together with the frames written to the
transport, as `(category, frame bytes)` pairs; the hex-text encoding applied
by `to_compact_string (to_hex_string ...)` (from `gshock_api.utils`, outside
the sources) is abstracted away, the transmitted content being the raw frame. -/
def on_convoy_received (s : Session) (data : List Nat) : Session × List (Nat × List Nat) :=
  if data = [] then (s, [])
  else
    let s1 : Session := { s with buffer := s.buffer ++ data }
    match s1.expected_len with
    | some el =>
      if el ≤ s1.buffer.length then
        let sent := if s1.connection then [(0x11, end_cmd)] else []
        (finalize_if_ready s1, sent)
      else (s1, [])
    | none => (s1, [])

/-- The observable effect of `LifelogIO.request`: the session state installed
before awaiting, the frame written on the control channel, and the timeout the
result channel was armed with.  The subsequent
`await LifelogIO._result.get_result()` suspends on exactly the channel stored
in `session.result`. -/
structure RequestEffect where
  session : Session
  sentCategory : Nat
  sentFrame : List Nat
  timeoutSeconds : ℚ
  deriving Repr, DecidableEq

/-- Default of the `timeout` parameter of `request` (`60.0` seconds). -/
def DEFAULT_TIMEOUT : ℚ := 60

/-- Embedding of `LifelogIO.request`: installs the connection, resets the
buffer and expected length, arms a fresh pending result channel with the given
timeout, and writes the start frame on category 0x11. -/
def request (timeout : ℚ) : RequestEffect :=
  { session := { connection := true
                 result := some none
                 buffer := []
                 expected_len := none }
    sentCategory := 0x11
    sentFrame := start_cmd
    timeoutSeconds := timeout }

/-- An incoming notification on one of the two channels. -/
inductive Event where
  | drsp (data : List Nat)
  | convoy (data : List Nat)
  deriving Repr, DecidableEq

/-- Run one notification handler (discarding outbound frames). -/
def step (s : Session) (e : Event) : Session :=
  match e with
  | .drsp d => on_drsp_received s d
  | .convoy d => (on_convoy_received s d).1

/-- Run a sequence of notifications in order. -/
def runEvents (s : Session) (es : List Event) : Session :=
  es.foldl step s

/-- Deliver a list of data-channel chunks to `on_convoy_received` in order. -/
def deliverChunks : Session → List (List Nat) → Session
  | s, [] => s
  | s, c :: rest => deliverChunks (on_convoy_received s c).1 rest

/-- Delivering the bytes of a tiny out-of-range triple through `|||`/`<<<`
agrees with the little-endian place-value sum. -/
theorem lor_shift_eq_add (x2 x3 x4 : Nat) (h2 : x2 < 256) (h3 : x3 < 256) :
    x2 ||| (x3 <<< 8) ||| (x4 <<< 16) = x2 + 256 * x3 + 65536 * x4 := by
  rw [Nat.shiftLeft_eq, Nat.shiftLeft_eq, Nat.lor_comm x2 (x3 * 2 ^ 8),
    Nat.mul_comm x3 (2 ^ 8)]
  rw [← Nat.mul_add_lt_is_or (by omega : x2 < 2 ^ 8) x3]
  rw [Nat.lor_comm _ (x4 * 2 ^ 16), Nat.mul_comm x4 (2 ^ 16)]
  rw [← Nat.mul_add_lt_is_or (show 2 ^ 8 * x3 + x2 < 2 ^ 16 by omega) x4]
  ring

/-- A second `set_result` never changes an already-delivered channel. -/
theorem set_result_set_result (ch : Channel) (v w : Nat) :
    set_result (set_result ch v) w = set_result ch v := by
  cases ch <;> rfl

/-- Finalization with no active request is the identity. -/
theorem finalize_of_no_result (s : Session) (h : s.result = none) :
    finalize_if_ready s = s := by
  unfold finalize_if_ready
  rw [h]

/-- Finalization before the length announcement is the identity. -/
theorem finalize_of_no_expected (s : Session) (h : s.expected_len = none) :
    finalize_if_ready s = s := by
  unfold finalize_if_ready
  cases hr : s.result with
  | none => rfl
  | some ch => rw [h]

/-- Finalization below the watermark is the identity. -/
theorem finalize_of_below_watermark (s : Session) (el : Nat)
    (hel : s.expected_len = some el) (hlt : s.buffer.length < el) :
    finalize_if_ready s = s := by
  unfold finalize_if_ready
  cases hr : s.result with
  | none => rfl
  | some ch => rw [hel]; dsimp only; rw [if_pos hlt]

/-- Finalization at the watermark but with a buffer too short for the steps
field is the identity. -/
theorem finalize_of_short_buffer (s : Session) (el : Nat)
    (hel : s.expected_len = some el) (hw : el ≤ s.buffer.length)
    (hshort : s.buffer.length < STEPS_OFFSET + 4) :
    finalize_if_ready s = s := by
  unfold finalize_if_ready
  cases hr : s.result with
  | none => rfl
  | some ch =>
    rw [hel]
    dsimp only
    rw [if_neg (Nat.not_lt.mpr hw), if_neg (Nat.not_le.mpr hshort)]

/-- Eligible finalization delivers the decoded step count to the channel. -/
theorem finalize_of_ready (s : Session) (ch : Channel) (el : Nat)
    (hres : s.result = some ch) (hel : s.expected_len = some el)
    (hw : el ≤ s.buffer.length) (hlong : STEPS_OFFSET + 4 ≤ s.buffer.length) :
    finalize_if_ready s
      = { s with result := some (set_result ch (readSteps s.buffer)) } := by
  unfold finalize_if_ready
  rw [hres, hel]
  dsimp only
  rw [if_neg (Nat.not_lt.mpr hw), if_pos hlong]

/-- Finalization only ever touches the result channel. -/
theorem finalize_fields (s : Session) :
    (finalize_if_ready s).connection = s.connection
    ∧ (finalize_if_ready s).buffer = s.buffer
    ∧ (finalize_if_ready s).expected_len = s.expected_len := by
  obtain ⟨cn, res, buf, ex⟩ := s
  unfold finalize_if_ready
  cases res <;> cases ex <;> dsimp only <;> refine ⟨?_, ?_, ?_⟩ <;>
    (repeat' split) <;> rfl

/-- A control frame that passes the short check and carries the start command
and the lifelog category installs the decoded 24-bit length. -/
theorem on_drsp_start (s : Session) (data : List Nat) (h5 : 5 ≤ data.length)
    (h0 : data.getD 0 0 = 0x00) (h1 : data.getD 1 0 = 0x11) :
    on_drsp_received s data
      = { s with expected_len := some (data.getD 2 0 ||| (data.getD 3 0 <<< 8) ||| (data.getD 4 0 <<< 16)) } := by
  unfold on_drsp_received
  rw [if_neg (Nat.not_lt.mpr h5)]
  dsimp only
  rw [h0, h1]
  norm_num

/-- A short control frame is dropped without touching the session. -/
theorem on_drsp_short (s : Session) (data : List Nat) (h : data.length < 5) :
    on_drsp_received s data = s := by
  unfold on_drsp_received
  rw [if_pos h]

/-- A control frame with a foreign category is ignored. -/
theorem on_drsp_wrong_category (s : Session) (data : List Nat)
    (h5 : 5 ≤ data.length) (hcat : data.getD 1 0 ≠ 0x11) :
    on_drsp_received s data = s := by
  unfold on_drsp_received
  rw [if_neg (Nat.not_lt.mpr h5)]
  dsimp only
  rw [if_pos hcat]

/-- An end frame (command 0x04, category 0x11) only attempts finalization. -/
theorem on_drsp_end (s : Session) (data : List Nat) (h5 : 5 ≤ data.length)
    (h0 : data.getD 0 0 = 0x04) (h1 : data.getD 1 0 = 0x11) :
    on_drsp_received s data = finalize_if_ready s := by
  unfold on_drsp_received
  rw [if_neg (Nat.not_lt.mpr h5)]
  dsimp only
  rw [h0, h1]
  norm_num

/-- A control frame whose command is neither start nor end is ignored. -/
theorem on_drsp_other_command (s : Session) (data : List Nat) (h5 : 5 ≤ data.length)
    (h0 : data.getD 0 0 ≠ 0x00) (h4 : data.getD 0 0 ≠ 0x04) :
    on_drsp_received s data = s := by
  unfold on_drsp_received
  rw [if_neg (Nat.not_lt.mpr h5)]
  dsimp only
  by_cases hc : data.getD 1 0 = 0x11
  · rw [hc]
    rw [if_neg (fun hne => hne rfl), if_neg h4, if_neg h0]
  · rw [if_pos hc]

/-- An empty data notification is dropped without touching the session. -/
theorem on_convoy_empty (s : Session) : on_convoy_received s [] = (s, []) := rfl

/-- Data arriving before the length announcement only grows the buffer. -/
theorem on_convoy_no_expected (s : Session) (data : List Nat) (hne : data ≠ [])
    (h : s.expected_len = none) :
    on_convoy_received s data = ({ s with buffer := s.buffer ++ data }, []) := by
  unfold on_convoy_received
  rw [if_neg hne]
  dsimp only
  rw [h]

/-- Data below the watermark only grows the buffer. -/
theorem on_convoy_below (s : Session) (data : List Nat) (el : Nat) (hne : data ≠ [])
    (hel : s.expected_len = some el) (hlt : s.buffer.length + data.length < el) :
    on_convoy_received s data = ({ s with buffer := s.buffer ++ data }, []) := by
  unfold on_convoy_received
  rw [if_neg hne]
  dsimp only
  rw [hel]
  dsimp only
  rw [if_neg (by simp only [List.length_append]; omega)]

/-- Data crossing the watermark emits the end frame exactly when a connection
is installed, then finalizes. -/
theorem on_convoy_reached (s : Session) (data : List Nat) (el : Nat) (hne : data ≠ [])
    (hel : s.expected_len = some el) (hge : el ≤ s.buffer.length + data.length) :
    on_convoy_received s data
      = (finalize_if_ready { s with buffer := s.buffer ++ data },
         if s.connection then [(0x11, end_cmd)] else []) := by
  unfold on_convoy_received
  rw [if_neg hne]
  dsimp only
  rw [hel]
  dsimp only
  rw [if_pos (by simp only [List.length_append]; omega)]

/-- The concatenation of a non-empty list of non-empty chunks is non-empty. -/
theorem flatten_length_pos (chunks : List (List Nat)) (hne : chunks ≠ [])
    (hall : ∀ c ∈ chunks, c ≠ []) : 0 < chunks.flatten.length := by
  cases chunks with
  | nil => exact absurd rfl hne
  | cons c rest =>
    have hc : 0 < c.length :=
      List.length_pos.mpr (hall c (List.mem_cons_self c rest))
    simp only [List.flatten_cons, List.length_append]
    omega

/-- Step counts decoded from a genuine byte buffer fit in 32 bits. -/
theorem readSteps_lt (b : List Nat) (hb : 378 ≤ b.length)
    (hbytes : ∀ x ∈ b, x < 256) : readSteps b < 4294967296 := by
  have hk : ∀ k, k < b.length → b.getD k 0 < 256 := by
    intro k hk
    rw [List.getD_eq_getElem b 0 hk]
    exact hbytes _ (List.getElem_mem hk)
  have h374 := hk 374 (by omega)
  have h375 := hk 375 (by omega)
  have h376 := hk 376 (by omega)
  have h377 := hk 377 (by omega)
  unfold readSteps
  omega

/-- Delivering, in order, non-empty chunks that complete the payload `b`
resolves the pending channel with the step count decoded from `b`. -/
theorem deliverChunks_resolves (b : List Nat) (hb : 378 ≤ b.length) :
    ∀ (chunks : List (List Nat)) (s : Session),
      (∀ c ∈ chunks, c ≠ []) →
      s.result = some none → s.expected_len = some b.length →
      s.buffer ++ chunks.flatten = b → s.buffer.length < b.length →
      (deliverChunks s chunks).result = some (some (readSteps b)) := by
  intro chunks
  induction chunks with
  | nil =>
    intro s _ _ _ hjoin hlt
    exfalso
    have hlen := congrArg List.length hjoin
    simp only [List.flatten_nil, List.append_nil] at hlen
    omega
  | cons c rest ih =>
    intro s hall hres hel hjoin hlt
    have hc : c ≠ [] := hall c (List.mem_cons_self c rest)
    have hjoin' : (s.buffer ++ c) ++ rest.flatten = b := by
      simpa only [List.flatten_cons, List.append_assoc] using hjoin
    by_cases hrest : rest = []
    · subst hrest
      have hbc : s.buffer ++ c = b := by simpa using hjoin'
      have hlen : b.length ≤ s.buffer.length + c.length := by
        have hl := congrArg List.length hbc
        simp only [List.length_append] at hl
        omega
      have hstep := on_convoy_reached s c b.length hc hel hlen
      simp only [deliverChunks]
      rw [hstep]
      dsimp only
      rw [finalize_of_ready { s with buffer := s.buffer ++ c } none b.length hres hel
        (show b.length ≤ (s.buffer ++ c).length by
          simp only [List.length_append]; omega)
        (show STEPS_OFFSET + 4 ≤ (s.buffer ++ c).length by
          simp only [STEPS_OFFSET, List.length_append]; omega)]
      dsimp only [set_result]
      rw [hbc]
    · have hrpos : 0 < rest.flatten.length :=
        flatten_length_pos rest hrest (fun d hd => hall d (List.mem_cons_of_mem c hd))
      have hlt' : (s.buffer ++ c).length < b.length := by
        have hl := congrArg List.length hjoin'
        simp only [List.length_append] at hl
        simp only [List.length_append]
        omega
      have hlen' : s.buffer.length + c.length < b.length := by
        have hl := hlt'
        simp only [List.length_append] at hl
        exact hl
      have hstep := on_convoy_below s c b.length hc hel hlen'
      simp only [deliverChunks]
      rw [hstep]
      exact ih _ (fun d hd => hall d (List.mem_cons_of_mem c hd)) hres hel hjoin' hlt'

/-- A control-channel handler call never resurrects an absent result slot. -/
theorem on_drsp_result_none (s : Session) (d : List Nat) (h : s.result = none) :
    (on_drsp_received s d).result = none := by
  by_cases h5 : d.length < 5
  · rw [on_drsp_short s d h5]; exact h
  have h5' : 5 ≤ d.length := Nat.not_lt.mp h5
  by_cases hcat : d.getD 1 0 = 0x11
  · by_cases h0 : d.getD 0 0 = 0x00
    · rw [on_drsp_start s d h5' h0 hcat]; exact h
    · by_cases h4 : d.getD 0 0 = 0x04
      · rw [on_drsp_end s d h5' h4 hcat, finalize_of_no_result s h]; exact h
      · rw [on_drsp_other_command s d h5' h0 h4]; exact h
  · rw [on_drsp_wrong_category s d h5' hcat]; exact h

/-- A data-channel handler call never resurrects an absent result slot. -/
theorem on_convoy_result_none (s : Session) (d : List Nat) (h : s.result = none) :
    ((on_convoy_received s d).1).result = none := by
  by_cases hne : d = []
  · subst hne; rw [on_convoy_empty]; exact h
  cases hel : s.expected_len with
  | none => rw [on_convoy_no_expected s d hne hel]; exact h
  | some el =>
    by_cases hw : el ≤ s.buffer.length + d.length
    · rw [on_convoy_reached s d el hne hel hw]
      dsimp only
      rw [finalize_of_no_result { s with buffer := s.buffer ++ d } h]
      exact h
    · rw [on_convoy_below s d el hne hel (Nat.not_le.mp hw)]; exact h

/-- One notification step preserves the absence of a result slot. -/
theorem step_result_none (s : Session) (e : Event) (h : s.result = none) :
    (step s e).result = none := by
  cases e with
  | drsp d => exact on_drsp_result_none s d h
  | convoy d => exact on_convoy_result_none s d h

/-- Any notification sequence preserves the absence of a result slot. -/
theorem runEvents_result_none (s : Session) (es : List Event) (h : s.result = none) :
    (runEvents s es).result = none := by
  induction es generalizing s with
  | nil => exact h
  | cons e rest ih => exact ih (step s e) (step_result_none s e h)

/-- C1: for every payload `b` of at least 378 bytes and every partition of
`b` into non-empty chunks, once a start control frame announcing
`length = b.length` has been handled, delivering the chunks in order to the
data-channel handler resolves the result channel with the little-endian
unsigned 32-bit integer at bytes 374..377 of `b`, independent of the chosen
partition. -/
theorem claim_C1 (t : ℚ) (b : List Nat) (chunks : List (List Nat)) (f : List Nat)
    (hb : 378 ≤ b.length) (hbytes : ∀ x ∈ b, x < 256)
    (hchunks : ∀ c ∈ chunks, c ≠ []) (hsplit : chunks.flatten = b)
    (hf5 : 5 ≤ f.length) (hf0 : f.getD 0 0 = 0x00) (hf1 : f.getD 1 0 = 0x11)
    (hf2 : f.getD 2 0 < 256) (hf3 : f.getD 3 0 < 256)
    (hflen : f.getD 2 0 + 256 * f.getD 3 0 + 65536 * f.getD 4 0 = b.length) :
    (deliverChunks (on_drsp_received (request t).session f) chunks).result
      = some (some (readSteps b))
    ∧ readSteps b < 4294967296 := by
  constructor
  · rw [on_drsp_start (request t).session f hf5 hf0 hf1]
    refine deliverChunks_resolves b hb chunks _ hchunks rfl ?_ ?_ ?_
    · show some (f.getD 2 0 ||| (f.getD 3 0 <<< 8) ||| (f.getD 4 0 <<< 16)) = some b.length
      rw [lor_shift_eq_add _ _ _ hf2 hf3, hflen]
    · simpa using hsplit
    · show ([] : List Nat).length < b.length
      simp only [List.length_nil]
      omega
  · exact readSteps_lt b hb hbytes

/-- Concrete instance of C1: a 378-byte all-zero payload delivered as a
single chunk after a start frame announcing 378 resolves step count 0. -/
theorem claim_C1_witness :
    378 ≤ (List.replicate 378 (0 : Nat)).length
    ∧ ((deliverChunks
          (on_drsp_received (request 60).session [0x00, 0x11, 0x7A, 0x01, 0x00])
          [List.replicate 378 (0 : Nat)]).result
        = some (some (readSteps (List.replicate 378 (0 : Nat))))
       ∧ readSteps (List.replicate 378 (0 : Nat)) < 4294967296) :=
  ⟨by simp,
   claim_C1 60 (List.replicate 378 0) [List.replicate 378 0]
     [0x00, 0x11, 0x7A, 0x01, 0x00]
     (by simp)
     (by intro x hx; rw [List.eq_of_mem_replicate hx]; omega)
     (by intro c hcm
         rw [List.mem_singleton] at hcm
         subst hcm
         simp)
     (by simp)
     (by decide) (by decide) (by decide) (by decide) (by decide)
     (by simp)⟩

/-- C2: once the eligibility condition (expected length set, buffer at the
watermark, buffer long enough for the steps field) holds, invoking
finalization twice in sequence changes nothing beyond the first invocation,
and a pending channel receives the decoded step count exactly once. -/
theorem claim_C2 (s : Session) (ch : Channel) (el : Nat)
    (hres : s.result = some ch) (hel : s.expected_len = some el)
    (hw : el ≤ s.buffer.length) (hlong : 378 ≤ s.buffer.length) :
    finalize_if_ready (finalize_if_ready s) = finalize_if_ready s
    ∧ (ch = none →
        (finalize_if_ready s).result = some (some (readSteps s.buffer))) := by
  have h378 : STEPS_OFFSET + 4 ≤ s.buffer.length := by
    simp only [STEPS_OFFSET]; omega
  have h1 := finalize_of_ready s ch el hres hel hw h378
  constructor
  · rw [h1]
    rw [finalize_of_ready { s with result := some (set_result ch (readSteps s.buffer)) }
        (set_result ch (readSteps s.buffer)) el rfl hel hw h378]
    rw [set_result_set_result]
  · intro hch
    subst hch
    rw [h1]
    rfl

/-- Concrete instance of C2: finalizing an eligible 378-byte session twice
leaves the single resolved value 0 in place. -/
theorem claim_C2_witness :
    (378 : Nat) ≤ (List.replicate 378 (0 : Nat)).length
    ∧ (finalize_if_ready (finalize_if_ready
          { connection := false, result := some none,
            buffer := List.replicate 378 (0 : Nat), expected_len := some 378 })
        = finalize_if_ready
          { connection := false, result := some none,
            buffer := List.replicate 378 (0 : Nat), expected_len := some 378 }
       ∧ ((none : Channel) = none →
          (finalize_if_ready
            { connection := false, result := some none,
              buffer := List.replicate 378 (0 : Nat), expected_len := some 378 }).result
            = some (some (readSteps (List.replicate 378 (0 : Nat)))))) :=
  ⟨by simp,
   claim_C2
     { connection := false, result := some none,
       buffer := List.replicate 378 (0 : Nat), expected_len := some 378 }
     none 378 rfl rfl (by simp) (by simp)⟩

/-- C3 fails as stated: a second start frame (command 0x00, category 0x11)
overwrites an already-set expected length, here turning 5 into 7. -/
theorem claim_C3_counterexample :
    (on_drsp_received
        { connection := false, result := none, buffer := [], expected_len := some 5 }
        [0x00, 0x11, 0x07, 0x00, 0x00]).expected_len = some 7
    ∧ (some 7 : Option Nat) ≠ some 5 := by
  constructor
  · decide
  · decide

/-- C3 amended: once the expected length is set, every later control frame
that is not itself a start frame (shorter than 5 bytes, or category other
than 0x11, or command other than 0x00) leaves the expected length unchanged. -/
theorem claim_C3 (s : Session) (el : Nat) (data : List Nat)
    (hel : s.expected_len = some el)
    (h : data.length < 5 ∨ data.getD 1 0 ≠ 0x11 ∨ data.getD 0 0 ≠ 0x00) :
    (on_drsp_received s data).expected_len = some el := by
  by_cases h5 : data.length < 5
  · rw [on_drsp_short s data h5]; exact hel
  have h5' : 5 ≤ data.length := Nat.not_lt.mp h5
  by_cases hcat : data.getD 1 0 = 0x11
  · have hcmd : data.getD 0 0 ≠ 0x00 := by
      rcases h with hx | hx | hx
      · exact absurd hx h5
      · exact absurd hcat hx
      · exact hx
    by_cases h4 : data.getD 0 0 = 0x04
    · rw [on_drsp_end s data h5' h4 hcat]
      rw [(finalize_fields s).2.2]
      exact hel
    · rw [on_drsp_other_command s data h5' hcmd h4]; exact hel
  · rw [on_drsp_wrong_category s data h5' hcat]; exact hel

/-- Concrete instance of the amended C3: an end frame leaves an expected
length of 5 in place. -/
theorem claim_C3_witness :
    ({ connection := false, result := none, buffer := [],
       expected_len := some 5 } : Session).expected_len = some 5
    ∧ (on_drsp_received
        { connection := false, result := none, buffer := [], expected_len := some 5 }
        [0x04, 0x11, 0x00, 0x00, 0x00]).expected_len = some 5 :=
  ⟨rfl,
   claim_C3
     { connection := false, result := none, buffer := [], expected_len := some 5 }
     5 [0x04, 0x11, 0x00, 0x00, 0x00] rfl (Or.inr (Or.inr (by decide)))⟩

/-- C4: when the expected length is set and the buffer has reached it but is
still shorter than 378 bytes (target offset 374 plus 4), finalization is a
no-op: the session, in particular its result channel, is unchanged, so the
caller can only observe the timeout. -/
theorem claim_C4 (s : Session) (el : Nat) (hel : s.expected_len = some el)
    (hw : el ≤ s.buffer.length) (hshort : s.buffer.length < 378) :
    finalize_if_ready s = s :=
  finalize_of_short_buffer s el hel hw (by simp only [STEPS_OFFSET]; omega)

/-- Concrete instance of C4: a 10-byte buffer meeting an announced length of
10 is not finalized. -/
theorem claim_C4_witness :
    (List.replicate 10 (0 : Nat)).length < 378
    ∧ finalize_if_ready
        { connection := true, result := some none,
          buffer := List.replicate 10 (0 : Nat), expected_len := some 10 }
      = { connection := true, result := some none,
          buffer := List.replicate 10 (0 : Nat), expected_len := some 10 } :=
  ⟨by simp,
   claim_C4
     { connection := true, result := some none,
       buffer := List.replicate 10 (0 : Nat), expected_len := some 10 }
     10 rfl (by simp) (by simp)⟩

/-- C5 fails as stated: an empty data notification with the watermark already
satisfied is dropped without emitting the end frame or touching the session,
and with no connection installed a watermark-crossing chunk emits nothing
either, while the claim demands the end frame in both situations. -/
theorem claim_C5_counterexample :
    (on_convoy_received
        { connection := true, result := some none, buffer := [], expected_len := some 0 }
        []).2 = []
    ∧ (on_convoy_received
        { connection := true, result := some none, buffer := [], expected_len := some 0 }
        []).1
      = { connection := true, result := some none, buffer := [], expected_len := some 0 }
    ∧ (on_convoy_received
        { connection := false, result := some none, buffer := [], expected_len := some 1 }
        [7]).2 = []
    ∧ ([] : List (Nat × List Nat)) ≠ [(0x11, end_cmd)] := by
  refine ⟨?_, ?_, ?_, ?_⟩ <;> decide

/-- C5 amended: every non-empty data notification appends its bytes to the
buffer; if afterwards the expected length is set and met, the handler emits
the end frame {command 0x04, category 0x11, length 0} exactly when a
connection is installed, and then attempts finalization; empty notifications
are dropped without any effect. -/
theorem claim_C5 (s : Session) (data : List Nat) (hne : data ≠ []) :
    (on_convoy_received s data).1.buffer = s.buffer ++ data
    ∧ (∀ el, s.expected_len = some el → el ≤ s.buffer.length + data.length →
        (on_convoy_received s data).2
            = (if s.connection then [(0x11, end_cmd)] else [])
        ∧ (on_convoy_received s data).1
            = finalize_if_ready { s with buffer := s.buffer ++ data }) := by
  constructor
  · cases hel : s.expected_len with
    | none => rw [on_convoy_no_expected s data hne hel]
    | some el =>
      by_cases hw : el ≤ s.buffer.length + data.length
      · rw [on_convoy_reached s data el hne hel hw]
        dsimp only
        exact (finalize_fields { s with buffer := s.buffer ++ data }).2.1
      · rw [on_convoy_below s data el hne hel (Nat.not_le.mp hw)]
  · intro el hel hw
    rw [on_convoy_reached s data el hne hel hw]
    exact ⟨rfl, rfl⟩

/-- Concrete instance of the amended C5: a single byte crossing an announced
length of 1 is appended, the end frame is emitted, and finalization runs. -/
theorem claim_C5_witness :
    ([7] : List Nat) ≠ []
    ∧ ((on_convoy_received { connection := true, result := some none, buffer := [], expected_len := some 1 } [7]).1.buffer
        = ({ connection := true, result := some none, buffer := [], expected_len := some 1 } : Session).buffer ++ [7]
       ∧ (∀ el, ({ connection := true, result := some none, buffer := [], expected_len := some 1 } : Session).expected_len = some el →
           el ≤ ({ connection := true, result := some none, buffer := [], expected_len := some 1 } : Session).buffer.length + ([7] : List Nat).length →
           (on_convoy_received { connection := true, result := some none, buffer := [], expected_len := some 1 } [7]).2
              = (if ({ connection := true, result := some none, buffer := [], expected_len := some 1 } : Session).connection then [(0x11, end_cmd)] else [])
           ∧ (on_convoy_received { connection := true, result := some none, buffer := [], expected_len := some 1 } [7]).1
              = finalize_if_ready { connection := true, result := some none, buffer := ({ connection := true, result := some none, buffer := [], expected_len := some 1 } : Session).buffer ++ [7], expected_len := some 1 })) :=
  ⟨by decide,
   claim_C5
     { connection := true, result := some none, buffer := [], expected_len := some 1 }
     [7] (by decide)⟩

/-- C6: a control-channel notification shorter than 5 bytes leaves the whole
session unchanged (so it neither mutates the expected length nor triggers
finalization). -/
theorem claim_C6 (s : Session) (data : List Nat) (h : data.length < 5) :
    on_drsp_received s data = s :=
  on_drsp_short s data h

/-- Concrete instance of C6: a 2-byte control notification is ignored. -/
theorem claim_C6_witness :
    ([0x00, 0x11] : List Nat).length < 5
    ∧ on_drsp_received
        { connection := true, result := some none, buffer := [1], expected_len := some 9 }
        [0x00, 0x11]
      = { connection := true, result := some none, buffer := [1], expected_len := some 9 } :=
  ⟨by decide,
   claim_C6
     { connection := true, result := some none, buffer := [1], expected_len := some 9 }
     [0x00, 0x11] (by decide)⟩

/-- C7: a control-channel notification of at least 5 bytes whose category
byte differs from 0x11 leaves the whole session (buffer, expected length and
result channel) unchanged. -/
theorem claim_C7 (s : Session) (data : List Nat) (h5 : 5 ≤ data.length)
    (hcat : data.getD 1 0 ≠ 0x11) :
    on_drsp_received s data = s :=
  on_drsp_wrong_category s data h5 hcat

/-- Concrete instance of C7: a start-shaped frame with category 0x12 is
ignored. -/
theorem claim_C7_witness :
    (5 : Nat) ≤ ([0x00, 0x12, 0x01, 0x00, 0x00] : List Nat).length
    ∧ on_drsp_received
        { connection := true, result := some none, buffer := [], expected_len := none }
        [0x00, 0x12, 0x01, 0x00, 0x00]
      = { connection := true, result := some none, buffer := [], expected_len := none } :=
  ⟨by decide,
   claim_C7
     { connection := true, result := some none, buffer := [], expected_len := none }
     [0x00, 0x12, 0x01, 0x00, 0x00] (by decide) (by decide)⟩

/-- C8: a control-channel notification of at least 5 bytes with command 0x00
and category 0x11 sets the expected length to the 24-bit little-endian value
data[2] + 256*data[3] + 65536*data[4]. -/
theorem claim_C8 (s : Session) (data : List Nat) (h5 : 5 ≤ data.length)
    (h0 : data.getD 0 0 = 0x00) (h1 : data.getD 1 0 = 0x11)
    (h2 : data.getD 2 0 < 256) (h3 : data.getD 3 0 < 256) :
    (on_drsp_received s data).expected_len
      = some (data.getD 2 0 + 256 * data.getD 3 0 + 65536 * data.getD 4 0) := by
  rw [on_drsp_start s data h5 h0 h1]
  dsimp only
  rw [lor_shift_eq_add _ _ _ h2 h3]

/-- Concrete instance of C8: the start frame bytes 01 02 03 decode to
1 + 256*2 + 65536*3 = 197121. -/
theorem claim_C8_witness :
    (5 : Nat) ≤ ([0x00, 0x11, 0x01, 0x02, 0x03] : List Nat).length
    ∧ (on_drsp_received
        { connection := true, result := some none, buffer := [], expected_len := none }
        [0x00, 0x11, 0x01, 0x02, 0x03]).expected_len
      = some (1 + 256 * 2 + 65536 * 3) :=
  ⟨by decide,
   claim_C8
     { connection := true, result := some none, buffer := [], expected_len := none }
     [0x00, 0x11, 0x01, 0x02, 0x03]
     (by decide) (by decide) (by decide) (by decide) (by decide)⟩

/-- C9: `request` installs the connection, resets the session to an empty
buffer and unset expected length, arms a fresh pending result channel with
the caller-specified timeout (default 60 seconds), and sends exactly the
5-byte start frame {command 0x00, category 0x11, length 0} on the control
channel (category 0x11); the call then awaits that very channel. -/
theorem claim_C9 (t : ℚ) :
    request t
      = { session := { connection := true, result := some none, buffer := [], expected_len := none },
          sentCategory := 0x11,
          sentFrame := [0x00, 0x11, 0x00, 0x00, 0x00],
          timeoutSeconds := t }
    ∧ DEFAULT_TIMEOUT = 60 :=
  ⟨rfl, rfl⟩

/-- C10: with no active request (result slot `None`), finalization is a
no-op, and no sequence of control-channel or data-channel notifications ever
resolves a value: the result slot stays `None` forever. -/
theorem claim_C10 (s : Session) (es : List Event) (h : s.result = none) :
    finalize_if_ready s = s ∧ (runEvents s es).result = none :=
  ⟨finalize_of_no_result s h, runEvents_result_none s es h⟩

/-- Concrete instance of C10: a full start-data-end exchange with no active
request resolves nothing. -/
theorem claim_C10_witness :
    ({ connection := true, result := none, buffer := [], expected_len := none } : Session).result
      = none
    ∧ (finalize_if_ready
          { connection := true, result := none, buffer := [], expected_len := none }
        = { connection := true, result := none, buffer := [], expected_len := none }
       ∧ (runEvents
            { connection := true, result := none, buffer := [], expected_len := none }
            [Event.drsp [0x00, 0x11, 0x02, 0x00, 0x00],
             Event.convoy [1, 2],
             Event.drsp [0x04, 0x11, 0x00, 0x00, 0x00]]).result = none) :=
  ⟨rfl,
   claim_C10
     { connection := true, result := none, buffer := [], expected_len := none }
     [Event.drsp [0x00, 0x11, 0x02, 0x00, 0x00],
      Event.convoy [1, 2],
      Event.drsp [0x04, 0x11, 0x00, 0x00, 0x00]]
     rfl⟩

end LifelogIO
